import Mathlib

/-!
Shallow embedding of the FreshFold-Tissues order pricing and invoice engine
(src/types.ts, src/pages/Orders.tsx, src/App.tsx).  JavaScript numbers are
modelled as exact rationals (ℚ); integer-valued quantities and stock counts
as ℕ/ℤ.  All definitions mirror the TypeScript source; definitions written
from the specification text instead are named `spec...` and documented as
such.
-/

namespace FreshFold

/-- Product record (src/types.ts).  `category` and `unit` are string enums in
the source; modelled as plain strings.  `stockQuantity` is ℤ so that the
effect of a stock decrement below zero is representable. -/
structure Product where
  id : String
  sku : String
  name : String
  category : String
  unit : String
  costPrice : ℚ
  sellingPrice : ℚ
  gstPercentage : ℚ
  stockQuantity : ℤ
  minThreshold : ℤ
  deriving Repr, DecidableEq

/-- Vendor record (src/types.ts). -/
structure Vendor where
  id : String
  name : String
  gstin : String
  contact : String
  address : String
  deriving Repr, DecidableEq

/-- VendorRequest record (src/types.ts). -/
structure VendorRequest where
  id : String
  vendorId : String
  vendorName : String
  productId : String
  productName : String
  quantity : ℕ
  expectedDate : String
  status : String
  createdAt : String
  discountPercentage : Option ℚ
  deriving Repr, DecidableEq

/-- One cart line `{productId, quantity}` (src/types.ts CartSession.items). -/
structure CartItem where
  productId : String
  quantity : ℕ
  deriving Repr, DecidableEq

/-- CartSession record (src/types.ts). -/
structure CartSession where
  items : List CartItem
  customerName : String
  customerPhone : String
  customerAddress : String
  customerGstin : String
  discountPercentage : ℚ
  deriving Repr, DecidableEq

/-- OrderItem record, a frozen order line (src/types.ts). -/
structure OrderItem where
  productId : String
  productName : String
  quantity : ℕ
  unitPrice : ℚ
  gstPercentage : ℚ
  subtotal : ℚ
  totalWithGst : ℚ
  deriving Repr, DecidableEq

/-- Order record (src/types.ts).  The optional customer fields are plain
strings here because the commit path always copies the (string-valued)
CartSession fields into them. -/
structure Order where
  id : String
  invoiceNumber : String
  date : String
  customerId : String
  customerName : String
  customerPhone : String
  customerAddress : String
  customerGstin : String
  items : List OrderItem
  totalAmount : ℚ
  totalGst : ℚ
  discountPercentage : ℚ
  discountAmount : ℚ
  grandTotal : ℚ
  deriving Repr, DecidableEq

/-- AppState record (src/types.ts): the single state blob threaded through
every page component. -/
structure AppState where
  products : List Product
  vendors : List Vendor
  requests : List VendorRequest
  orders : List Order
  cartSession : CartSession
  deriving Repr, DecidableEq

/-! ### Number-to-words converter (src/pages/Orders.tsx, `numberToWords`) -/

/-- The `units` word array of `numberToWords`. -/
def unitsWords : List String :=
  ["", "One", "Two", "Three", "Four", "Five", "Six", "Seven", "Eight", "Nine"]

/-- The `teens` word array of `numberToWords`. -/
def teensWords : List String :=
  ["Ten", "Eleven", "Twelve", "Thirteen", "Fourteen", "Fifteen", "Sixteen",
   "Seventeen", "Eighteen", "Nineteen"]

/-- The `tens` word array of `numberToWords`. -/
def tensWords : List String :=
  ["", "", "Twenty", "Thirty", "Forty", "Fifty", "Sixty", "Seventy", "Eighty",
   "Ninety"]

/-- `inWords` helper of `numberToWords`: words for a number below 1000
(anything ≥ 1000 yields the empty string, as in the source). -/
def inWords (num : ℕ) : String :=
  if num = 0 then ""
  else if num < 10 then unitsWords.getD num ""
  else if num < 20 then teensWords.getD (num - 10) ""
  else if _h3 : num < 100 then
    tensWords.getD (num / 10) "" ++
      (if num % 10 ≠ 0 then " " ++ unitsWords.getD (num % 10) "" else "")
  else if num < 1000 then
    unitsWords.getD (num / 100) "" ++ " Hundred" ++
      (if num % 100 ≠ 0 then " " ++ inWords (num % 100) else "")
  else ""
termination_by num
decreasing_by omega

/-- `numberToIndian` helper of `numberToWords`: crore/lakh/thousand grouping,
with the accumulating `result` string threaded exactly as in the source. -/
def numberToIndian (num : ℕ) : String :=
  let crore := num / 10000000
  let n1 := num % 10000000
  let lakh := n1 / 100000
  let n2 := n1 % 100000
  let thousand := n2 / 1000
  let hundredPlus := n2 % 1000
  let r1 := if crore ≠ 0 then inWords crore ++ " Crore" else ""
  let r2 := if lakh ≠ 0 then
      r1 ++ (if r1 ≠ "" then " " else "") ++ inWords lakh ++ " Lakh" else r1
  let r3 := if thousand ≠ 0 then
      r2 ++ (if r2 ≠ "" then " " else "") ++ inWords thousand ++ " Thousand" else r2
  let r4 := if hundredPlus ≠ 0 then
      r3 ++ (if r3 ≠ "" then " " else "") ++ inWords hundredPlus else r3
  if r4 = "" then "Zero" else r4

/-- JavaScript `Math.round`: round half toward positive infinity. -/
def jsRound (q : ℚ) : ℤ := ⌊q + 1 / 2⌋

/-- `numberToWords` (src/pages/Orders.tsx lines 66-108).  The paise component
adds the source's `1e-9` epsilon before rounding.  `Int.toNat` is harmless
here: `rupees` is nonnegative for every nonnegative amount the app passes,
and `paise` is always nonnegative. -/
def numberToWords (amount : ℚ) : String :=
  let rupees : ℤ := ⌊amount⌋
  let paise : ℤ := jsRound ((|amount - (rupees : ℚ)| + 1 / 1000000000) * 100)
  let rupeesWords := numberToIndian rupees.toNat
  let paiseWords := if paise ≠ 0 then numberToIndian paise.toNat ++ " Paise" else ""
  let final1 := "Rupees " ++ rupeesWords
  let final2 := if paise ≠ 0 then final1 ++ " and " ++ paiseWords else final1
  final2 ++ " Only"

/-! ### Pricing engine (src/pages/Orders.tsx, `cartItems` and `totals`) -/

/-- One priced cart line as produced by the `cartItems` memo: the cart line
spread together with the resolved product's name/price/gst and the computed
subtotal and (gst-inclusive) total. -/
structure PricedItem where
  productId : String
  quantity : ℕ
  name : String
  price : ℚ
  gst : ℚ
  subtotal : ℚ
  total : ℚ
  deriving Repr, DecidableEq

/-- The `cartItems` memo (src/pages/Orders.tsx lines 136-153): each cart line
is resolved against the catalog with `products.find`; unresolvable lines map
to `null` and are dropped by `.filter(Boolean)`, modelled by `filterMap`. -/
def cartItems (products : List Product) (cart : List CartItem) : List PricedItem :=
  cart.filterMap fun item =>
    (products.find? fun p => p.id == item.productId).map fun product =>
      let subtotal := product.sellingPrice * (item.quantity : ℚ)
      let gstAmount := subtotal * product.gstPercentage / 100
      { productId := item.productId
        quantity := item.quantity
        name := product.name
        price := product.sellingPrice
        gst := product.gstPercentage
        subtotal := subtotal
        total := subtotal + gstAmount }

/-- The aggregate record returned by the `totals` memo. -/
structure Totals where
  amount : ℚ
  discountAmount : ℚ
  taxableAmount : ℚ
  gst : ℚ
  grandTotal : ℚ
  deriving Repr, DecidableEq

/-- The `totals` memo (src/pages/Orders.tsx lines 155-170): both `reduce`
aggregations are left folds from 0, kept as such. -/
def totals (items : List PricedItem) (discountPercentage : ℚ) : Totals :=
  let rawSubtotal := items.foldl (fun sum item => sum + item.subtotal) 0
  let discountAmount := rawSubtotal * discountPercentage / 100
  let taxableAmount := rawSubtotal - discountAmount
  let rawGstTotal := items.foldl (fun sum item => sum + (item.total - item.subtotal)) 0
  let finalGst := if rawSubtotal > 0 then rawGstTotal * (taxableAmount / rawSubtotal) else 0
  { amount := rawSubtotal
    discountAmount := discountAmount
    taxableAmount := taxableAmount
    gst := finalGst
    grandTotal := taxableAmount + finalGst }

/-! ### Cart mutation handlers (src/pages/Orders.tsx) -/

/-- `handleAddToCart` (src/pages/Orders.tsx lines 172-211).  `typedQty` is the
`parseInt` of the quantity field (ℤ; the NaN case behaves like the rejected
nonpositive case).  Every `alert`-and-return branch leaves the state
unchanged. -/
def handleAddToCart (typedQty : ℤ) (productId : String) (state : AppState) : AppState :=
  if typedQty ≤ 0 then state
  else
    match state.products.find? fun p => p.id == productId with
    | none => state
    | some product =>
      if product.stockQuantity = 0 then state
      else
        let existing := state.cartSession.items.find? fun i => i.productId == productId
        let currentQtyInCart : ℕ := (existing.map fun i => i.quantity).getD 0
        let newTotalQty : ℕ := currentQtyInCart + typedQty.toNat
        if (newTotalQty : ℤ) > product.stockQuantity then state
        else
          let newItems :=
            match existing with
            | some _ =>
                state.cartSession.items.map fun i =>
                  if i.productId == productId then { i with quantity := newTotalQty } else i
            | none => state.cartSession.items ++ [⟨productId, typedQty.toNat⟩]
          { state with cartSession := { state.cartSession with items := newItems } }

/-- `updateCartQuantity` (src/pages/Orders.tsx lines 213-232).  `newQty` is the
`parseInt` of the edited field; negative (and NaN) values return without
change, values above the product's stock are rejected. -/
def updateCartQuantity (newQty : ℤ) (productId : String) (state : AppState) : AppState :=
  match state.products.find? fun p => p.id == productId with
  | none => state
  | some product =>
    if newQty < 0 then state
    else if newQty > product.stockQuantity then state
    else
      { state with
        cartSession :=
          { state.cartSession with
            items := state.cartSession.items.map fun i =>
              if i.productId == productId then { i with quantity := newQty.toNat } else i } }

/-- `removeFromCart` (src/pages/Orders.tsx lines 234-242). -/
def removeFromCart (productId : String) (state : AppState) : AppState :=
  { state with
    cartSession :=
      { state.cartSession with
        items := state.cartSession.items.filter fun i => ¬(i.productId == productId) } }

/-! ### Order commit (src/pages/Orders.tsx, `handleCreateOrder`) -/

/-- The empty cart session literal used by `resetSession` and by the commit
path (src/pages/Orders.tsx lines 255-263 and 315-322). -/
def emptyCartSession : CartSession :=
  { items := []
    customerName := ""
    customerPhone := ""
    customerAddress := ""
    customerGstin := ""
    discountPercentage := 0 }

/-- `validCart` inside `handleCreateOrder` (line 268): the priced cart lines
with positive quantity. -/
def validCart (state : AppState) : List PricedItem :=
  (cartItems state.products state.cartSession.items).filter fun item => 0 < item.quantity

/-- The nondeterministically generated identifiers of a commit
(`generateId('ORD')`, `INV-${Date.now()...}`, `new Date().toISOString()`,
`generateId('CUS')`), passed in as parameters. -/
structure OrderMeta where
  id : String
  invoiceNumber : String
  date : String
  customerId : String
  deriving Repr, DecidableEq

/-- The `newOrder` record built by `handleCreateOrder` (lines 275-300):
frozen order lines from `validCart` plus the aggregates of `totals`. -/
def newOrder (meta : OrderMeta) (state : AppState) : Order :=
  let t := totals (cartItems state.products state.cartSession.items)
      state.cartSession.discountPercentage
  { id := meta.id
    invoiceNumber := meta.invoiceNumber
    date := meta.date
    customerId := meta.customerId
    customerName := state.cartSession.customerName
    customerPhone := state.cartSession.customerPhone
    customerAddress := state.cartSession.customerAddress
    customerGstin := state.cartSession.customerGstin
    items := (validCart state).map fun item =>
      { productId := item.productId
        productName := item.name
        quantity := item.quantity
        unitPrice := item.price
        gstPercentage := item.gst
        subtotal := item.subtotal
        totalWithGst := item.total }
    totalAmount := t.amount
    totalGst := t.gst
    discountPercentage := state.cartSession.discountPercentage
    discountAmount := t.discountAmount
    grandTotal := t.grandTotal }

/-- `handleCreateOrder` (src/pages/Orders.tsx lines 267-329).  The guard is the
source's `!customerName || validCart.length === 0`; on success the state
transition decrements stock for every product matched by a committed line,
prepends the new order and resets the cart session. -/
def handleCreateOrder (meta : OrderMeta) (state : AppState) : AppState :=
  if state.cartSession.customerName = "" ∨ validCart state = [] then state
  else
    { state with
      products := state.products.map fun p =>
        match (validCart state).find? fun ci => ci.productId == p.id with
        | some cartItem => { p with stockQuantity := p.stockQuantity - (cartItem.quantity : ℤ) }
        | none => p
      orders := newOrder meta state :: state.orders
      cartSession := emptyCartSession }

/-! ### App-level initial state (src/App.tsx) -/

/-- The runtime shape of the persisted state blob as `App` handles it: every
field of `AppState`, but with `cartSession` optional because the `AppState`
object literal in App.tsx may omit it (an absent JavaScript property is
`none`). -/
structure AppStateOpt where
  products : List Product
  vendors : List Vendor
  requests : List VendorRequest
  orders : List Order
  cartSession : Option CartSession
  deriving Repr, DecidableEq

/-- `INITIAL_STATE` (src/App.tsx lines 26-31).  The source object literal is
`{ products: [], vendors: [], requests: [], orders: [] }`: it has no
`cartSession` property, although its declared type `AppState` requires one. -/
def INITIAL_STATE : AppStateOpt :=
  { products := []
    vendors := []
    requests := []
    orders := []
    cartSession := none }

/-- The `useState` initializer of `App` (src/App.tsx lines 161-164):
`saved ? JSON.parse(saved) : INITIAL_STATE`. -/
def appInitialState (saved : Option AppStateOpt) : AppStateOpt :=
  saved.getD INITIAL_STATE


/-- Per-line data of the specification pricing rules (§4.1 / claim C1),
written from the spec text: for each resolvable line the pair
`(subtotal, lineGst)` with `subtotal = sellingPrice × quantity` and
`lineGst = subtotal × gstPercentage / 100`. -/
def specResolvedLines (products : List Product) (cart : List CartItem) : List (ℚ × ℚ) :=
  cart.filterMap fun item =>
    (products.find? fun p => p.id == item.productId).map fun product =>
      let subtotal := product.sellingPrice * (item.quantity : ℚ)
      (subtotal, subtotal * product.gstPercentage / 100)

/-- The aggregate totals of the specification pricing rules (§4.1 / claim C1),
written from the spec text: `rawSubtotal = Σ subtotal`,
`discountAmount = rawSubtotal × discountPercentage / 100`,
`taxableAmount = rawSubtotal − discountAmount`, `rawGst = Σ lineGst`,
`finalGst = rawGst × (taxableAmount / rawSubtotal)` when `rawSubtotal > 0`
else `0`, and `grandTotal = taxableAmount + finalGst`. -/
def specTotals (products : List Product) (cart : List CartItem)
    (discountPercentage : ℚ) : Totals :=
  let lines := specResolvedLines products cart
  let rawSubtotal := (lines.map Prod.fst).sum
  let rawGst := (lines.map Prod.snd).sum
  let discountAmount := rawSubtotal * discountPercentage / 100
  let taxableAmount := rawSubtotal - discountAmount
  let finalGst := if rawSubtotal > 0 then rawGst * (taxableAmount / rawSubtotal) else 0
  { amount := rawSubtotal
    discountAmount := discountAmount
    taxableAmount := taxableAmount
    gst := finalGst
    grandTotal := taxableAmount + finalGst }

/-- A left fold accumulating `+ f x` from `a` is `a` plus the sum of the
mapped list. -/
lemma foldl_add_eq {α : Type} (f : α → ℚ) (l : List α) (a : ℚ) :
    l.foldl (fun s x => s + f x) a = a + (l.map f).sum := by
  induction l generalizing a with
  | nil => simp
  | cons x xs ih => simp [ih, add_assoc]

/-- The subtotals of the priced cart lines are the spec-side line subtotals. -/
lemma cartItems_map_subtotal (products : List Product) (cart : List CartItem) :
    (cartItems products cart).map (fun i => i.subtotal) =
      (specResolvedLines products cart).map Prod.fst := by
  induction cart with
  | nil => rfl
  | cons item rest ih =>
    simp only [cartItems, specResolvedLines, List.filterMap_cons] at *
    cases h : products.find? fun p => p.id == item.productId <;>
      simp [h, ih]

/-- The per-line GST amounts of the priced cart lines are the spec-side
line GST amounts. -/
lemma cartItems_map_lineGst (products : List Product) (cart : List CartItem) :
    (cartItems products cart).map (fun i => i.total - i.subtotal) =
      (specResolvedLines products cart).map Prod.snd := by
  induction cart with
  | nil => rfl
  | cons item rest ih =>
    simp only [cartItems, specResolvedLines, List.filterMap_cons] at *
    cases h : products.find? fun p => p.id == item.productId <;>
      simp [h, ih]

/-- C1: for every cart and catalog the priced totals are exactly the
spec-mandated ones: per resolvable line `subtotal = sellingPrice × quantity`
and `lineGst = subtotal × gstPercentage / 100`; `rawSubtotal = Σ subtotal`;
`discountAmount = rawSubtotal × discountPercentage / 100`;
`taxableAmount = rawSubtotal − discountAmount`;
`finalGst = rawGst × (taxableAmount / rawSubtotal)` when `rawSubtotal > 0`
(else 0) with `rawGst = Σ lineGst`; `grandTotal = taxableAmount + finalGst`. -/
theorem pricing_totals_match_spec (products : List Product) (cart : List CartItem)
    (discountPercentage : ℚ) :
    totals (cartItems products cart) discountPercentage =
      specTotals products cart discountPercentage := by
  simp only [totals, specTotals]
  rw [foldl_add_eq, foldl_add_eq, zero_add, zero_add,
    cartItems_map_subtotal, cartItems_map_lineGst]



/-- C6: whenever the priced cart lines sum to a zero raw subtotal (the empty
cart included), the computed proportional GST is 0: the guarded branch of the
`finalGst` conditional never divides by the zero subtotal. -/
theorem zero_rawSubtotal_gives_zero_gst (products : List Product)
    (cart : List CartItem) (d : ℚ)
    (h : (totals (cartItems products cart) d).amount = 0) :
    (totals (cartItems products cart) d).gst = 0 := by
  simp only [totals] at h ⊢
  rw [h]
  simp

/-- Witness for C6: the empty cart has raw subtotal 0 and computed GST 0. -/
theorem zero_rawSubtotal_gives_zero_gst_witness :
    (totals (cartItems [] []) 7).amount = 0 ∧ (totals (cartItems [] []) 7).gst = 0 :=
  ⟨rfl, zero_rawSubtotal_gives_zero_gst [] [] 7 rfl⟩

/-- C7: a cart line whose product does not resolve in the catalog is silently
excluded from pricing: it leaves the priced line list, and hence every
aggregate (raw subtotal, GST, grand total), exactly as if the line were
absent, and the remaining lines still price. -/
theorem dangling_line_silently_excluded (products : List Product)
    (pre post : List CartItem) (item : CartItem) (d : ℚ)
    (h : products.find? (fun p => p.id == item.productId) = none) :
    cartItems products (pre ++ item :: post) = cartItems products (pre ++ post) ∧
      totals (cartItems products (pre ++ item :: post)) d =
        totals (cartItems products (pre ++ post)) d := by
  have h1 : cartItems products (pre ++ item :: post) = cartItems products (pre ++ post) := by
    simp [cartItems, List.filterMap_append, List.filterMap_cons, h]
  exact ⟨h1, by rw [h1]⟩

/-- Witness for C7: a line referencing a product missing from an empty
catalog contributes nothing. -/
theorem dangling_line_silently_excluded_witness :
    cartItems [] ([] ++ ⟨"X", 1⟩ :: []) = cartItems [] ([] ++ []) ∧
      totals (cartItems [] ([] ++ ⟨"X", 1⟩ :: [])) 0 = totals (cartItems [] ([] ++ [])) 0 :=
  dangling_line_silently_excluded [] [] [] ⟨"X", 1⟩ 0 rfl

/-- C4: when the customer name is blank or no priced cart line has positive
quantity, the commit is rejected and the whole state — products, orders and
cart session included — is returned unchanged. -/
theorem commit_rejected_leaves_state_unchanged (meta : OrderMeta) (state : AppState)
    (h : state.cartSession.customerName = "" ∨ validCart state = []) :
    handleCreateOrder meta state = state := by
  unfold handleCreateOrder
  rw [if_pos h]

/-- Witness for C4: committing the pristine empty state is a no-op. -/
theorem commit_rejected_leaves_state_unchanged_witness :
    handleCreateOrder ⟨"ORD-1", "INV-1", "2026-01-01", "CUS-1"⟩
        ⟨[], [], [], [], emptyCartSession⟩ =
      ⟨[], [], [], [], emptyCartSession⟩ :=
  commit_rejected_leaves_state_unchanged _ _ (Or.inl rfl)



/-- A sample catalog product used by concrete witnesses (price 100, GST 18%,
stock 5, as in the spec §8 scenario). -/
def sampleProduct : Product :=
  ⟨"P1", "SKU1", "Tissue Box", "Facial Tissue", "packs", 50, 100, 18, 5, 1⟩

/-- A sample app state: one product, a cart of 3 units with customer name
present and a 10% discount. -/
def sampleState : AppState :=
  ⟨[sampleProduct], [], [], [], ⟨[⟨"P1", 3⟩], "Asha", "", "", "", 10⟩⟩

/-- Sample generated identifiers for a commit. -/
def sampleMeta : OrderMeta := ⟨"ORD-7", "INV-000007", "2026-02-03", "CUS-7"⟩

/-- C3: a commit that passes the guard (non-empty customer name, at least one
priced line with positive quantity) prepends exactly the one new order,
resets the cart session to its empty default, and rewrites the product list
so that a product matched by a committed line loses exactly that line's
quantity of stock while every other product is unchanged. -/
theorem commit_success_effects (meta : OrderMeta) (state : AppState)
    (hname : state.cartSession.customerName ≠ "")
    (hcart : validCart state ≠ []) :
    (handleCreateOrder meta state).orders = newOrder meta state :: state.orders ∧
      (handleCreateOrder meta state).cartSession = emptyCartSession ∧
      ∀ i, (hi : i < state.products.length) →
        (∀ ci, (validCart state).find?
              (fun c => c.productId == (state.products.get ⟨i, hi⟩).id) = some ci →
            (handleCreateOrder meta state).products[i]? =
              some { state.products.get ⟨i, hi⟩ with
                     stockQuantity :=
                       (state.products.get ⟨i, hi⟩).stockQuantity - (ci.quantity : ℤ) }) ∧
          ((validCart state).find?
              (fun c => c.productId == (state.products.get ⟨i, hi⟩).id) = none →
            (handleCreateOrder meta state).products[i]? =
              some (state.products.get ⟨i, hi⟩)) := by
  have hguard : ¬(state.cartSession.customerName = "" ∨ validCart state = []) := by
    rintro (h | h)
    · exact hname h
    · exact hcart h
  unfold handleCreateOrder
  rw [if_neg hguard]
  refine ⟨rfl, rfl, ?_⟩
  intro i hi
  constructor
  · intro ci hci
    simp only [List.get_eq_getElem] at hci
    simp [List.getElem?_map, List.getElem?_eq_getElem hi, hci]
  · intro hnone
    simp only [List.get_eq_getElem] at hnone
    simp [List.getElem?_map, List.getElem?_eq_getElem hi, hnone]

/-- Witness for C3: committing the sample state resets the cart session. -/
theorem commit_success_effects_witness :
    validCart sampleState ≠ [] ∧
      (handleCreateOrder sampleMeta sampleState).cartSession = emptyCartSession :=
  ⟨by decide, (commit_success_effects sampleMeta sampleState (by decide) (by decide)).2.1⟩



/-- C5: the order frozen by a successful commit satisfies the aggregate
consistency invariant `grandTotal = (totalAmount − discountAmount) + totalGst`
— exactly, since the engine's arithmetic is exact — where `totalAmount` is the
pre-discount pre-tax sum of the priced line subtotals and
`discountAmount = totalAmount × discountPercentage / 100`. -/
theorem committed_order_aggregate_invariant (meta : OrderMeta) (state : AppState)
    (hname : state.cartSession.customerName ≠ "")
    (hcart : validCart state ≠ []) :
    (handleCreateOrder meta state).orders.head? = some (newOrder meta state) ∧
      (newOrder meta state).grandTotal =
        ((newOrder meta state).totalAmount - (newOrder meta state).discountAmount) +
          (newOrder meta state).totalGst ∧
      (newOrder meta state).discountAmount =
        (newOrder meta state).totalAmount * (newOrder meta state).discountPercentage / 100 ∧
      (newOrder meta state).totalAmount =
        ((cartItems state.products state.cartSession.items).map fun i => i.subtotal).sum := by
  have hguard : ¬(state.cartSession.customerName = "" ∨ validCart state = []) := by
    rintro (h | h)
    · exact hname h
    · exact hcart h
  refine ⟨?_, ?_, ?_, ?_⟩
  · unfold handleCreateOrder
    rw [if_neg hguard]
    rfl
  · simp only [newOrder, totals]
  · simp only [newOrder, totals]
  · simp only [newOrder, totals]
    rw [foldl_add_eq, zero_add]

/-- Witness for C5: the sample commit's order satisfies the invariant. -/
theorem committed_order_aggregate_invariant_witness :
    (newOrder sampleMeta sampleState).grandTotal =
      ((newOrder sampleMeta sampleState).totalAmount -
          (newOrder sampleMeta sampleState).discountAmount) +
        (newOrder sampleMeta sampleState).totalGst :=
  (committed_order_aggregate_invariant sampleMeta sampleState (by decide) (by decide)).2.1



/-- A product with stock 5, as in the spec §8 stock-failure scenario. -/
def overdrawnProduct : Product :=
  ⟨"A", "SKU-A", "Prod A", "Other", "packs", 50, 100, 18, 5, 0⟩

/-- A state whose cart requests quantity 6 of `overdrawnProduct` (stock 5):
the input on which the spec demands a `StockError` at commit time. -/
def overdrawnState : AppState :=
  ⟨[overdrawnProduct], [], [], [], ⟨[⟨"A", 6⟩], "Ravi", "", "", "", 0⟩⟩

/-- C2 evaluation: `handleCreateOrder` performs no commit-time stock
re-validation.  On a cart requesting 6 units of a product with stock 5 the
commit succeeds anyway: the order is appended, the cart is cleared, and the
product's stock is driven to −1 instead of staying at 5 behind a
`StockError` (no such error path exists in the commit handler). -/
theorem commit_overdraws_stock_without_error :
    (handleCreateOrder sampleMeta overdrawnState).orders.length =
        overdrawnState.orders.length + 1 ∧
      ((handleCreateOrder sampleMeta overdrawnState).products.map
          fun p => p.stockQuantity) = [-1] ∧
      (handleCreateOrder sampleMeta overdrawnState).cartSession = emptyCartSession := by
  refine ⟨?_, ?_, ?_⟩ <;> decide

/-- C9 evaluation: the `INITIAL_STATE` literal of App.tsx, used verbatim as
the session-start state when nothing is saved, carries no `cartSession` at
all — not an empty one. -/
theorem appInitialState_has_no_cartSession :
    (appInitialState none).cartSession = none ∧
      appInitialState none = INITIAL_STATE := ⟨rfl, rfl⟩



/-- Evaluation helper: once the rupee floor and the epsilon-adjusted paise
rounding are known, `numberToWords` is the corresponding word assembly. -/
lemma numberToWords_eq_parts (amount : ℚ) (r p : ℤ)
    (hr : ⌊amount⌋ = r)
    (hp : jsRound ((|amount - (r : ℚ)| + 1 / 1000000000) * 100) = p) :
    numberToWords amount =
      (if p ≠ 0 then
        "Rupees " ++ numberToIndian r.toNat ++ " and " ++ (numberToIndian p.toNat ++ " Paise")
      else "Rupees " ++ numberToIndian r.toNat) ++ " Only" := by
  simp only [numberToWords, hr, hp]
  by_cases hp0 : p = 0
  · simp [hp0]
  · simp [hp0]

/-- Frac-part floor fact for the zero amount. -/
lemma paise_of_zero :
    jsRound ((|(0 : ℚ) - ((0 : ℤ) : ℚ)| + 1 / 1000000000) * 100) = 0 := by
  have : ((|(0 : ℚ) - ((0 : ℤ) : ℚ)| + 1 / 1000000000) * 100) = 1 / 10000000 := by
    norm_num
  rw [jsRound, this, Int.floor_eq_iff]; norm_num

/-- Floor fact for the documented example amount 1234567.89. -/
lemma floor_of_example : ⌊(123456789 / 100 : ℚ)⌋ = 1234567 := by
  rw [Int.floor_eq_iff]; norm_num

/-- Paise fact for the documented example amount 1234567.89. -/
lemma paise_of_example :
    jsRound ((|(123456789 / 100 : ℚ) - ((1234567 : ℤ) : ℚ)| + 1 / 1000000000) * 100) = 89 := by
  have h1 : |(123456789 / 100 : ℚ) - ((1234567 : ℤ) : ℚ)| = 89 / 100 := by
    rw [show ((123456789 : ℚ) / 100) - ((1234567 : ℤ) : ℚ) = 89 / 100 by norm_num,
      abs_of_nonneg (by norm_num)]
  rw [jsRound, h1, Int.floor_eq_iff]; norm_num

/-- C8: for every nonnegative amount, `numberToWords` renders
"Rupees <rupee-words>", appends " and <paise-words> Paise" exactly when the
(epsilon-adjusted, rounded two-digit) paise component is nonzero, and always
ends in " Only"; zero renders as "Zero" (`numberToIndian 0 = "Zero"`); in
particular `numberToWords 0 = "Rupees Zero Only"` and
`numberToWords 1234567.89` is the documented twelve-lakh sentence. -/
theorem numberToWords_rupees_paise_rendering :
    (∀ amount : ℚ, 0 ≤ amount →
        numberToWords amount =
          "Rupees " ++ numberToIndian (⌊amount⌋).toNat ++
            (if jsRound ((|amount - ((⌊amount⌋ : ℤ) : ℚ)| + 1 / 1000000000) * 100) ≠ 0 then
              " and " ++
                numberToIndian
                  (jsRound ((|amount - ((⌊amount⌋ : ℤ) : ℚ)| + 1 / 1000000000) * 100)).toNat ++
                " Paise"
            else "") ++ " Only") ∧
      numberToIndian 0 = "Zero" ∧
      numberToWords 0 = "Rupees Zero Only" ∧
      numberToWords (123456789 / 100) =
        "Rupees Twelve Lakh Thirty Four Thousand Five Hundred Sixty Seven and Eighty Nine Paise Only" := by
  refine ⟨?_, by simp [numberToIndian], ?_, ?_⟩
  · intro amount _
    simp only [numberToWords]
    split <;> simp [String.append_assoc]
  · rw [numberToWords_eq_parts 0 0 0 Int.floor_zero paise_of_zero]
    simp [numberToIndian]
  · rw [numberToWords_eq_parts (123456789 / 100) 1234567 89 floor_of_example paise_of_example]
    simp [numberToIndian, inWords, unitsWords, tensWords, teensWords]

/-- Witness for C8: the rendering shape instantiated at amount 1/2
("Rupees Zero and Fifty Paise Only"). -/
theorem numberToWords_rupees_paise_rendering_witness :
    numberToWords (1 / 2) = "Rupees Zero and Fifty Paise Only" := by
  have h := numberToWords_rupees_paise_rendering.1 (1 / 2) (by norm_num)
  have hfl : ⌊(1 / 2 : ℚ)⌋ = 0 := by rw [Int.floor_eq_iff]; norm_num
  have hp : jsRound ((|(1 / 2 : ℚ) - ((0 : ℤ) : ℚ)| + 1 / 1000000000) * 100) = 50 := by
    have h1 : |(1 / 2 : ℚ) - ((0 : ℤ) : ℚ)| = 1 / 2 := by
      rw [show ((1 : ℚ) / 2) - ((0 : ℤ) : ℚ) = 1 / 2 by norm_num,
        abs_of_nonneg (by norm_num)]
    rw [jsRound, h1, Int.floor_eq_iff]; norm_num
  rw [h, hfl, hp]
  simp [numberToIndian, inWords, unitsWords, tensWords, teensWords]



/-- The cart/stock invariant: no cart line's quantity exceeds the stock of
the product it resolves to in the given catalog. -/
def cartStockOk (products : List Product) (items : List CartItem) : Prop :=
  ∀ it ∈ items, ∀ p, products.find? (fun q => q.id == it.productId) = some p →
    (it.quantity : ℤ) ≤ p.stockQuantity

lemma handleAddToCart_products_eq (q : ℤ) (pid : String) (s : AppState) :
    (handleAddToCart q pid s).products = s.products := by
  simp only [handleAddToCart]
  split
  · rfl
  split
  · rfl
  split
  · rfl
  split
  · rfl
  split
  all_goals rfl

lemma updateCartQuantity_products_eq (q : ℤ) (pid : String) (s : AppState) :
    (updateCartQuantity q pid s).products = s.products := by
  simp only [updateCartQuantity]
  split
  · rfl
  split
  · rfl
  split
  all_goals rfl

lemma handleAddToCart_stockOk (q : ℤ) (pid : String) (s : AppState)
    (h : cartStockOk s.products s.cartSession.items) :
    cartStockOk s.products (handleAddToCart q pid s).cartSession.items := by
  simp only [handleAddToCart]
  split
  · exact h
  split
  · exact h
  next product hfind =>
  split
  · exact h
  next hstock =>
  split
  · exact h
  next hover =>
  split
  next e hex =>
    rw [hex] at hover ⊢
    simp only [Option.map_some', Option.getD_some] at hover ⊢
    intro it hit p' hp'
    rcases List.mem_map.mp hit with ⟨i, hi, rfl⟩
    by_cases hm : i.productId == pid
    · simp only [hm, if_true] at hp' ⊢
      have hpe : i.productId = pid := by simpa using hm
      rw [hpe] at hp'
      rw [hp'] at hfind
      injection hfind with hfind
      subst hfind
      push_cast
      omega
    · simp [hm] at hp' ⊢
      exact h i hi p' hp'
  next hex =>
    rw [hex] at hover
    simp only [Option.map_none', Option.getD_none, Nat.zero_add] at hover
    intro it hit p' hp'
    rcases List.mem_append.mp hit with hold | hnew
    · exact h it hold p' hp'
    · have hit' : it = ⟨pid, q.toNat⟩ := by simpa using hnew
      subst hit'
      rw [hp'] at hfind
      injection hfind with hfind
      subst hfind
      push_cast
      omega



lemma updateCartQuantity_stockOk (q : ℤ) (pid : String) (s : AppState)
    (h : cartStockOk s.products s.cartSession.items) :
    cartStockOk s.products (updateCartQuantity q pid s).cartSession.items := by
  simp only [updateCartQuantity]
  split
  · exact h
  next product hfind =>
  split
  · exact h
  next hneg =>
  split
  · exact h
  next hover =>
  intro it hit p' hp'
  rcases List.mem_map.mp hit with ⟨i, hi, rfl⟩
  by_cases hm : i.productId == pid
  · simp only [hm, if_true] at hp' ⊢
    have hpe : i.productId = pid := by simpa using hm
    rw [hpe] at hp'
    rw [hp'] at hfind
    injection hfind with hfind
    subst hfind
    omega
  · simp [hm] at hp' ⊢
    exact h i hi p' hp'

lemma handleAddToCart_rejects_insufficient (q : ℤ) (pid : String) (s : AppState)
    (p : Product)
    (hfind : s.products.find? (fun r => r.id == pid) = some p)
    (hover : ((((s.cartSession.items.find? fun i => i.productId == pid).map
        fun i => i.quantity).getD 0 + q.toNat : ℕ) : ℤ) > p.stockQuantity) :
    handleAddToCart q pid s = s := by
  simp only [handleAddToCart]
  split
  · rfl
  split
  · rfl
  next product hfind2 =>
  rw [hfind2] at hfind
  injection hfind with hfind
  subst hfind
  split
  · rfl
  rfl

lemma updateCartQuantity_rejects_insufficient (q : ℤ) (pid : String) (s : AppState)
    (p : Product)
    (hfind : s.products.find? (fun r => r.id == pid) = some p)
    (hover : q > p.stockQuantity) :
    updateCartQuantity q pid s = s := by
  simp only [updateCartQuantity]
  split
  · rfl
  next product hfind2 =>
  rw [hfind2] at hfind
  injection hfind with hfind
  subst hfind
  split
  · rfl
  rfl

lemma map_productId_update (l : List CartItem) (pid : String) (n : ℕ) :
    ((l.map fun i => if i.productId == pid then { i with quantity := n } else i).map
      fun i => i.productId) = l.map fun i => i.productId := by
  induction l with
  | nil => rfl
  | cons x xs ih =>
    simp only [List.map_cons, ih]
    congr 1
    split
    · rfl
    · rfl

lemma handleAddToCart_nodup_keys (q : ℤ) (pid : String) (s : AppState)
    (h : (s.cartSession.items.map fun i => i.productId).Nodup) :
    ((handleAddToCart q pid s).cartSession.items.map fun i => i.productId).Nodup := by
  simp only [handleAddToCart]
  split
  · exact h
  split
  · exact h
  next product hfind =>
  split
  · exact h
  split
  · exact h
  split
  next e hex =>
    rw [map_productId_update]
    exact h
  next hex =>
    simp only [List.map_append, List.map_cons, List.map_nil]
    rw [List.nodup_append]
    refine ⟨h, List.nodup_singleton _, ?_⟩
    intro a ha hb
    simp only [List.mem_singleton] at hb
    subst hb
    rcases List.mem_map.mp ha with ⟨i, hi, hkey⟩
    have := List.find?_eq_none.mp hex i hi
    simp [hkey] at this



/-- C10: the cart-mutating handlers keep the cart consistent with the catalog
current at mutation time: (i) adding leaves the catalog untouched and
preserves the bound quantity ≤ stock for every resolvable line, (ii) so does
updating a line's quantity, (iii) an addition whose merged quantity would
exceed the product's stock is rejected with the state unchanged, (iv) an
update to a quantity above the product's stock is rejected with the state
unchanged, and (v) adding merges into an existing line, so a cart with
distinct product ids keeps them distinct (at most one line per product). -/
theorem cart_mutations_preserve_stock_invariant :
    (∀ (q : ℤ) (pid : String) (s : AppState),
        cartStockOk s.products s.cartSession.items →
          (handleAddToCart q pid s).products = s.products ∧
            cartStockOk s.products (handleAddToCart q pid s).cartSession.items) ∧
      (∀ (q : ℤ) (pid : String) (s : AppState),
          cartStockOk s.products s.cartSession.items →
            (updateCartQuantity q pid s).products = s.products ∧
              cartStockOk s.products (updateCartQuantity q pid s).cartSession.items) ∧
      (∀ (q : ℤ) (pid : String) (s : AppState) (p : Product),
          s.products.find? (fun r => r.id == pid) = some p →
            ((((s.cartSession.items.find? fun i => i.productId == pid).map
                fun i => i.quantity).getD 0 + q.toNat : ℕ) : ℤ) > p.stockQuantity →
              handleAddToCart q pid s = s) ∧
      (∀ (q : ℤ) (pid : String) (s : AppState) (p : Product),
          s.products.find? (fun r => r.id == pid) = some p →
            q > p.stockQuantity → updateCartQuantity q pid s = s) ∧
      (∀ (q : ℤ) (pid : String) (s : AppState),
          (s.cartSession.items.map fun i => i.productId).Nodup →
            ((handleAddToCart q pid s).cartSession.items.map fun i => i.productId).Nodup) :=
  ⟨fun q pid s h => ⟨handleAddToCart_products_eq q pid s, handleAddToCart_stockOk q pid s h⟩,
    fun q pid s h => ⟨updateCartQuantity_products_eq q pid s, updateCartQuantity_stockOk q pid s h⟩,
    fun q pid s p hfind hover => handleAddToCart_rejects_insufficient q pid s p hfind hover,
    fun q pid s p hfind hover => updateCartQuantity_rejects_insufficient q pid s p hfind hover,
    fun q pid s h => handleAddToCart_nodup_keys q pid s h⟩

/-- Witness for C10: updating the sample cart line to 9 units (stock 5) is
rejected and leaves the state unchanged. -/
theorem cart_mutations_preserve_stock_invariant_witness :
    updateCartQuantity 9 "P1" sampleState = sampleState :=
  cart_mutations_preserve_stock_invariant.2.2.2.1 9 "P1" sampleState sampleProduct rfl
    (by decide)


end FreshFold
